import Mathlib

/-
Verification development for tools/clean_annotation_file_from_labels.py,
a COCO annotation-file cleaning utility.  The script loads a JSON document,
removes the categories whose id is in a caller-supplied removal list and the
annotations whose category_id is in that list, writes the result back, and
reports statistics.  We embed the script shallowly: file I/O becomes explicit
inputs (the load result, a write-success flag) and an explicit record of what
would be written; JSON values the script never inspects become opaque strings.
-/

namespace Coco

/-- COCO category record.  The filter reads only the integer id; name and
supercategory are read by the verbose command-line summary; every other field
is opaque payload carried along verbatim. -/
structure Category where
  id : Int
  name : String
  supercategory : Option String
  extra : List (String × String)
deriving DecidableEq

/-- COCO annotation record.  The filter reads only category_id; every other
field is opaque payload carried along verbatim. -/
structure Ann where
  category_id : Int
  extra : List (String × String)
deriving DecidableEq

/-- Parsed COCO document (the dict produced by json.load).  The categories
and annotations keys may be absent (modelled as none); every other top-level
key is carried verbatim in other. -/
structure CocoDoc where
  categories : Option (List Category)
  annotations : Option (List Ann)
  other : List (String × String)
deriving DecidableEq

/-- Statistics dict returned by clean_coco_annotations. -/
structure CleanStats where
  categories_removed_count : Nat
  categories_removed : List Category
  annotations_removed_count : Nat
  original_categories_count : Nat
  original_annotations_count : Nat
  final_categories_count : Nat
  final_annotations_count : Nat
  output_file : String
deriving DecidableEq

/-- Error taxonomy of clean_coco_annotations: FileNotFoundError re-raised at
line 35, ValueError for invalid JSON (line 37), ValueError for a missing
required field (lines 41 and 43), IOError for a failed write (line 71). -/
inductive CleanError where
  | fileNotFound (path : String)
  | invalidJson (msg : String)
  | missingField (field : String)
  | writeError (msg : String)
deriving DecidableEq

/-- Result of the json.load call on the source file: the file may be absent,
hold invalid JSON, or parse to a document. -/
inductive LoadResult where
  | notFound
  | parseError (msg : String)
  | ok (doc : CocoDoc)
deriving DecidableEq

/-- Record of the single file write performed by the script: destination
path, the serialized document, and the indent argument passed to json.dump
(some 2 for pretty-printed output, none for compact output). -/
structure WriteRecord where
  path : String
  doc : CocoDoc
  indent : Option Nat
deriving DecidableEq

/-- Error messages produced by str() on the exceptions that
clean_coco_annotations raises. -/
def renderError : CleanError → String
  | .fileNotFound p => "Annotation file not found: " ++ p
  | .invalidJson m => "Invalid JSON file: " ++ m
  | .missingField f => "\x27" ++ f ++ "\x27 field not found in annotation file"
  | .writeError m => "Failed to write output file: " ++ m

/-- Body of clean_coco_annotations after a successful json.load (lines 39-85
of the source): validate the required keys, filter, write, build statistics.
The success of the final write is an explicit input; on success the function
returns the statistics dict together with the write the script performs
(path, document, indent).  The Python code converts category_ids_to_remove
to a set before testing membership; a set built from a list has exactly the
membership of the list, so the removal argument stays a list here and
membership is List.contains. -/
def cleanData (data : CocoDoc) (writeOk : Bool)
    (annotation_file_path : String) (category_ids_to_remove : List Int)
    (output_file_path : Option String) :
    Except CleanError (CleanStats × WriteRecord) :=
  match data.categories, data.annotations with
    | none, _ => .error (.missingField "categories")
    | some _, none => .error (.missingField "annotations")
    | some cats, some anns =>
      let original_categories_count := cats.length
      let original_annotations_count := anns.length
      let newCategories :=
        cats.filter (fun cat => !(category_ids_to_remove.contains cat.id))
      let categories_removed :=
        cats.filter (fun cat => category_ids_to_remove.contains cat.id)
      let newAnns :=
        anns.filter (fun ann => !(category_ids_to_remove.contains ann.category_id))
      let annotations_removed :=
        anns.filter (fun ann => category_ids_to_remove.contains ann.category_id)
      let outPath := output_file_path.getD annotation_file_path
      let newDoc : CocoDoc :=
        { data with categories := some newCategories, annotations := some newAnns }
      let indent : Option Nat :=
        if outPath ≠ annotation_file_path then some 2 else none
      if writeOk then
        .ok ({ categories_removed_count := categories_removed.length,
               categories_removed := categories_removed,
               annotations_removed_count := annotations_removed.length,
               original_categories_count := original_categories_count,
               original_annotations_count := original_annotations_count,
               final_categories_count := newCategories.length,
               final_annotations_count := newAnns.length,
               output_file := outPath },
             { path := outPath, doc := newDoc, indent := indent })
      else .error (.writeError "write failed")

/-- Embedding of clean_coco_annotations proper: dispatch on the outcome of
opening and parsing the source file, then run the validation-and-filter body
(cleanData, lines 39-85 of the source). -/
def clean_coco_annotations (load : LoadResult) (writeOk : Bool)
    (annotation_file_path : String) (category_ids_to_remove : List Int)
    (output_file_path : Option String) :
    Except CleanError (CleanStats × WriteRecord) :=
  match load with
  | .notFound => .error (.fileNotFound annotation_file_path)
  | .parseError msg => .error (.invalidJson msg)
  | .ok data =>
    cleanData data writeOk annotation_file_path category_ids_to_remove output_file_path

/-- Digits of a Python decimal integer literal as accepted by int(): a
nonempty digit sequence in which a single underscore may stand between two
digits.  The Bool argument records whether the previous character was a
digit; the Nat argument is the accumulated value. -/
def pyDigits : List Char → Bool → Nat → Option Nat
  | [], seen, acc => if seen then some acc else none
  | c :: rest, seen, acc =>
    if c.isDigit then pyDigits rest true (acc * 10 + (c.toNat - 48))
    else if c == '_' && seen then pyDigits rest false acc
    else none

/-- Leading and trailing whitespace removal, modelling str.strip() and the
whitespace tolerance of int() (restricted to ASCII whitespace). -/
def stripChars (cs : List Char) : List Char :=
  ((cs.dropWhile Char.isWhitespace).reverse.dropWhile Char.isWhitespace).reverse

/-- Model of str.strip(): drop leading and trailing whitespace. -/
def pyStrip (s : String) : String := String.mk (stripChars s.toList)

/-- Model of Python int(s) on a decimal string: surrounding whitespace is
ignored, then an optional single sign precedes the digits.  Restricted to
ASCII digits and whitespace (the script is fed command-line text). -/
def pyInt (s : String) : Option Int :=
  match stripChars s.toList with
  | '+' :: rest => (pyDigits rest false 0).map (fun n => (n : Int))
  | '-' :: rest => (pyDigits rest false 0).map (fun n => -(n : Int))
  | cs => (pyDigits cs false 0).map (fun n => (n : Int))

/-- Helper for splitComma: accumulates the current token (reversed). -/
def splitCommaAux : List Char → List Char → List String
  | [], cur => [String.mk cur.reverse]
  | c :: rest, cur =>
    if c == ',' then String.mk cur.reverse :: splitCommaAux rest []
    else splitCommaAux rest (c :: cur)

/-- Model of Python str.split on a comma: always returns at least one token;
the empty string yields a single empty token. -/
def splitComma (s : String) : List String := splitCommaAux s.toList []

/-- Embedding of line 132 of the source: split the category-id argument on
commas, strip each token and convert it with int(); any failing token makes
the whole parse fail (ValueError). -/
def parseCategoryIds (s : String) : Option (List Int) :=
  (splitComma s).mapM (fun tok => pyInt (pyStrip tok))

/-- Lines printed to standard output on success (lines 155-163 of the
source), including the extra verbose listing of removed categories. -/
def summaryLines (stats : CleanStats) (verbose : Bool) : List String :=
  ["✓ Successfully cleaned annotation file",
   "  Categories removed: " ++ toString stats.categories_removed_count ++
     " (from " ++ toString stats.original_categories_count ++
     " to " ++ toString stats.final_categories_count ++ ")",
   "  Annotations removed: " ++ toString stats.annotations_removed_count ++
     " (from " ++ toString stats.original_annotations_count ++
     " to " ++ toString stats.final_annotations_count ++ ")",
   "  Output file: " ++ stats.output_file]
  ++ (if verbose && !stats.categories_removed.isEmpty then
        "" :: "Removed categories:" ::
          stats.categories_removed.map (fun cat =>
            "  - ID " ++ toString cat.id ++ ": " ++ cat.name ++
              " (supercategory: " ++ cat.supercategory.getD "none" ++ ")")
      else [])

/-- Process outcome of one command-line run: exit code 0 with a summary on
standard output, or exit code 1 with a message on standard error. -/
inductive CliOutcome where
  | exit0 (stdoutLines : List String)
  | exit1 (stderrLine : String)
deriving DecidableEq

/-- Embedding of main (lines 88-167 of the source) after argparse has bound
the three positional arguments and the verbose flag.  fileExists models
Path(annotation_file).exists(); load models what json.load would yield when
the file is opened; writeOk models whether the output write succeeds.  The
second component is the file write the run performs, none when no file is
written or modified. -/
def mainRun (fileExists : Bool) (load : LoadResult) (writeOk : Bool)
    (annotation_file : String) (category_ids_arg : String)
    (output_file : Option String) (verbose : Bool) :
    CliOutcome × Option WriteRecord :=
  match parseCategoryIds category_ids_arg with
  | none => (.exit1 "Error: Category IDs must be integers separated by commas", none)
  | some category_ids =>
    if category_ids.isEmpty then
      (.exit1 "Error: At least one category ID must be specified", none)
    else if !fileExists then
      (.exit1 ("Error: Annotation file not found: " ++ annotation_file), none)
    else
      match clean_coco_annotations load writeOk annotation_file category_ids output_file with
      | .ok (stats, wr) => (.exit0 (summaryLines stats verbose), some wr)
      | .error e => (.exit1 ("Error: " ++ renderError e), none)

/-- Concrete categories of Scenario A of the specification. -/
def exCats : List Category :=
  [⟨0, "a", none, []⟩, ⟨1, "b", none, []⟩, ⟨39, "c", none, []⟩]

/-- Concrete annotations of Scenario A: category_id sequence 0, 1, 39, 1. -/
def exAnns : List Ann :=
  [⟨0, []⟩, ⟨1, [("bbox", "b1")]⟩, ⟨39, []⟩, ⟨1, []⟩]

/-- Concrete document used by the witnesses, with an extra passed-through
top-level key. -/
def exDoc : CocoDoc := ⟨some exCats, some exAnns, [("images", "imgs")]⟩

/-- Concrete document missing the annotations key. -/
def exDocNoAnns : CocoDoc := ⟨some exCats, none, []⟩

theorem contains_eq_decide_mem (S : List Int) (x : Int) :
    S.contains x = decide (x ∈ S) :=
  List.elem_eq_mem x S

theorem length_filter_add_length_filter_not {α : Type} (l : List α) (p : α → Bool) :
    (l.filter p).length + (l.filter (fun a => !(p a))).length = l.length := by
  induction l with
  | nil => rfl
  | cons a t ih =>
    by_cases h : p a = true <;> simp [List.filter_cons, h, ← ih] <;> omega

theorem length_filter_filter_not_eq_zero {α : Type} (l : List α) (p : α → Bool) :
    ((l.filter (fun a => !(p a))).filter p).length = 0 := by
  rw [List.filter_filter]
  simp

theorem filter_contains_congr {α : Type} (l : List α) (f : α → Int) (S : List Int) :
    l.filter (fun a => S.contains (f a)) = l.filter (fun a => decide (f a ∈ S)) := by
  apply List.filter_congr
  intro a _
  simp [contains_eq_decide_mem]

theorem filter_not_contains_congr {α : Type} (l : List α) (f : α → Int) (S : List Int) :
    l.filter (fun a => !(S.contains (f a))) = l.filter (fun a => decide (f a ∉ S)) := by
  apply List.filter_congr
  intro a _
  simp [contains_eq_decide_mem]

/-- Unfolding of clean_coco_annotations on a well-formed document with a
successful write: the exact statistics and write record it produces. -/
theorem clean_ok_eq (data : CocoDoc) (cats : List Category) (anns : List Ann)
    (S : List Int) (src : String) (out : Option String)
    (hc : data.categories = some cats) (ha : data.annotations = some anns) :
    clean_coco_annotations (.ok data) true src S out =
      .ok ({ categories_removed_count := (cats.filter (fun cat => S.contains cat.id)).length,
             categories_removed := cats.filter (fun cat => S.contains cat.id),
             annotations_removed_count :=
               (anns.filter (fun a => S.contains a.category_id)).length,
             original_categories_count := cats.length,
             original_annotations_count := anns.length,
             final_categories_count := (cats.filter (fun cat => !(S.contains cat.id))).length,
             final_annotations_count :=
               (anns.filter (fun a => !(S.contains a.category_id))).length,
             output_file := out.getD src },
           { path := out.getD src,
             doc := { data with
                        categories := some (cats.filter (fun cat => !(S.contains cat.id))),
                        annotations := some (anns.filter (fun a => !(S.contains a.category_id))) },
             indent := if out.getD src ≠ src then some 2 else none }) := by
  show cleanData data true src S out = _
  unfold cleanData
  rw [hc, ha]
  rfl

/-- C1: for every document whose categories key holds cats and every removal
list S, the filtered document's categories are exactly the elements of cats
whose id is not in S, in the original relative order (List.filter keeps
exactly the entries satisfying the predicate, in order). -/
theorem clean_categories_exact (data : CocoDoc) (cats : List Category)
    (anns : List Ann) (S : List Int) (src : String) (out : Option String)
    (hc : data.categories = some cats) (ha : data.annotations = some anns) :
    ∃ stats wr, clean_coco_annotations (.ok data) true src S out = .ok (stats, wr) ∧
      wr.doc.categories = some (cats.filter (fun c => decide (c.id ∉ S))) := by
  refine ⟨_, _, clean_ok_eq data cats anns S src out hc ha, ?_⟩
  exact congrArg some (filter_not_contains_congr cats (fun c => c.id) S)

/-- Witness for C1 at the Scenario A document with S = [0, 39]. -/
theorem clean_categories_exact_witness :
    ∃ stats wr,
      clean_coco_annotations (.ok exDoc) true "annotations.json" [0, 39]
        (some "cleaned.json") = .ok (stats, wr) ∧
      wr.doc.categories = some (exCats.filter (fun c => decide (c.id ∉ [0, 39]))) :=
  clean_categories_exact exDoc exCats exAnns [0, 39] "annotations.json"
    (some "cleaned.json") rfl rfl

/-- C2: the filtered document's annotations are exactly the elements of the
input annotations whose category_id is not in S, in the original relative
order; moreover the result is determined by the annotations alone — any
document with the same annotations (and any categories whatsoever) yields
the same output annotations, so removal depends solely on each record's own
category_id and not on which category records exist. -/
theorem clean_annotations_exact (data : CocoDoc) (cats : List Category)
    (anns : List Ann) (S : List Int) (src : String) (out : Option String)
    (hc : data.categories = some cats) (ha : data.annotations = some anns) :
    ∃ stats wr, clean_coco_annotations (.ok data) true src S out = .ok (stats, wr) ∧
      wr.doc.annotations = some (anns.filter (fun a => decide (a.category_id ∉ S))) ∧
      ∀ (data2 : CocoDoc) (cats2 : List Category),
        data2.categories = some cats2 → data2.annotations = some anns →
        ∃ stats2 wr2,
          clean_coco_annotations (.ok data2) true src S out = .ok (stats2, wr2) ∧
            wr2.doc.annotations = wr.doc.annotations := by
  refine ⟨_, _, clean_ok_eq data cats anns S src out hc ha, ?_, ?_⟩
  · exact congrArg some (filter_not_contains_congr anns (fun a => a.category_id) S)
  · intro data2 cats2 hc2 ha2
    exact ⟨_, _, clean_ok_eq data2 cats2 anns S src out hc2 ha2, rfl⟩

/-- Witness for C2 at the Scenario A document with S = [0, 39]. -/
theorem clean_annotations_exact_witness :
    ∃ stats wr,
      clean_coco_annotations (.ok exDoc) true "annotations.json" [0, 39]
        (some "cleaned.json") = .ok (stats, wr) ∧
      wr.doc.annotations =
        some (exAnns.filter (fun a => decide (a.category_id ∉ [0, 39]))) ∧
      ∀ (data2 : CocoDoc) (cats2 : List Category),
        data2.categories = some cats2 → data2.annotations = some exAnns →
        ∃ stats2 wr2,
          clean_coco_annotations (.ok data2) true "annotations.json" [0, 39]
              (some "cleaned.json") = .ok (stats2, wr2) ∧
            wr2.doc.annotations = wr.doc.annotations :=
  clean_annotations_exact exDoc exCats exAnns [0, 39] "annotations.json"
    (some "cleaned.json") rfl rfl

/-- C3: when the document lacks the categories key or the annotations key,
clean_coco_annotations fails with the missing-field kind of ValueError, and
no write is performed — in the model a write exists only inside an ok
result, and at the command-line level the run records no written file. -/
theorem clean_missing_field_error (data : CocoDoc) (writeOk : Bool) (src : String)
    (S : List Int) (out : Option String)
    (h : data.categories = none ∨ data.annotations = none) :
    (∃ f, clean_coco_annotations (.ok data) writeOk src S out =
        .error (.missingField f)) ∧
      ∀ (fe : Bool) (arg : String) (v : Bool),
        (mainRun fe (.ok data) writeOk src arg out v).2 = none := by
  have hclean : ∃ f, clean_coco_annotations (.ok data) writeOk src S out =
      .error (.missingField f) := by
    show ∃ f, cleanData data writeOk src S out = .error (.missingField f)
    unfold cleanData
    rcases h with h | h
    · rw [h]
      exact ⟨"categories", rfl⟩
    · cases hc : data.categories with
      | none => exact ⟨"categories", rfl⟩
      | some cats => rw [h]; exact ⟨"annotations", rfl⟩
  have hclean2 : ∀ (S2 : List Int),
      ∃ f, cleanData data writeOk src S2 out = .error (.missingField f) := by
    intro S2
    unfold cleanData
    rcases h with h | h
    · rw [h]
      exact ⟨"categories", rfl⟩
    · cases hc : data.categories with
      | none => exact ⟨"categories", rfl⟩
      | some cats => rw [h]; exact ⟨"annotations", rfl⟩
  refine ⟨hclean, ?_⟩
  intro fe arg v
  unfold mainRun
  cases hp : parseCategoryIds arg with
  | none => rfl
  | some ids =>
    by_cases hi : ids.isEmpty
    · simp [hi]
    · cases fe with
      | false => simp [hi]
      | true =>
        obtain ⟨f, hf⟩ := hclean2 ids
        have hf2 : clean_coco_annotations (.ok data) writeOk src ids out =
            .error (.missingField f) := hf
        simp [hi, hf2]

/-- Witness for C3 at a document missing the annotations key. -/
theorem clean_missing_field_error_witness :
    (∃ f, clean_coco_annotations (.ok exDocNoAnns) true "annotations.json" [0, 39]
        none = .error (.missingField f)) ∧
      ∀ (fe : Bool) (arg : String) (v : Bool),
        (mainRun fe (.ok exDocNoAnns) true "annotations.json" arg none v).2 = none :=
  clean_missing_field_error exDocNoAnns true "annotations.json" [0, 39] none
    (Or.inr rfl)

/-- C4: every top-level key other than categories and annotations passes
through with its value unchanged (the other component is carried verbatim),
and the retained category and annotation records are kept verbatim: the
output sequences are sublists of the inputs, so each retained record is one
of the original records with all of its fields unchanged and in the original
relative order. -/
theorem clean_frame_preserved (data : CocoDoc) (cats : List Category)
    (anns : List Ann) (S : List Int) (src : String) (out : Option String)
    (hc : data.categories = some cats) (ha : data.annotations = some anns) :
    ∃ stats wr, clean_coco_annotations (.ok data) true src S out = .ok (stats, wr) ∧
      wr.doc.other = data.other ∧
      (∃ keptCats, wr.doc.categories = some keptCats ∧ keptCats.Sublist cats) ∧
      (∃ keptAnns, wr.doc.annotations = some keptAnns ∧ keptAnns.Sublist anns) := by
  refine ⟨_, _, clean_ok_eq data cats anns S src out hc ha, rfl, ?_, ?_⟩
  · exact ⟨_, rfl, List.filter_sublist cats⟩
  · exact ⟨_, rfl, List.filter_sublist anns⟩

/-- Witness for C4 at the Scenario A document. -/
theorem clean_frame_preserved_witness :
    ∃ stats wr,
      clean_coco_annotations (.ok exDoc) true "annotations.json" [0, 39]
        (some "cleaned.json") = .ok (stats, wr) ∧
      wr.doc.other = exDoc.other ∧
      (∃ keptCats, wr.doc.categories = some keptCats ∧ keptCats.Sublist exCats) ∧
      (∃ keptAnns, wr.doc.annotations = some keptAnns ∧ keptAnns.Sublist exAnns) :=
  clean_frame_preserved exDoc exCats exAnns [0, 39] "annotations.json"
    (some "cleaned.json") rfl rfl

/-- C5: the filter is idempotent — running clean_coco_annotations a second
time with the same removal list on the document written by the first run
removes nothing: the second statistics report zero removed categories and
zero removed annotations. -/
theorem clean_idempotent (data : CocoDoc) (cats : List Category)
    (anns : List Ann) (S : List Int) (src src2 : String)
    (out out2 : Option String)
    (hc : data.categories = some cats) (ha : data.annotations = some anns) :
    ∃ stats wr stats2 wr2,
      clean_coco_annotations (.ok data) true src S out = .ok (stats, wr) ∧
      clean_coco_annotations (.ok wr.doc) true src2 S out2 = .ok (stats2, wr2) ∧
      stats2.categories_removed_count = 0 ∧
      stats2.annotations_removed_count = 0 := by
  refine ⟨_, _, _, _, clean_ok_eq data cats anns S src out hc ha,
    clean_ok_eq _ _ _ S src2 out2 rfl rfl, ?_, ?_⟩
  · exact length_filter_filter_not_eq_zero cats (fun cat => S.contains cat.id)
  · exact length_filter_filter_not_eq_zero anns (fun a => S.contains a.category_id)

/-- Witness for C5 at the Scenario A document with S = [0, 39]. -/
theorem clean_idempotent_witness :
    ∃ stats wr stats2 wr2,
      clean_coco_annotations (.ok exDoc) true "annotations.json" [0, 39]
        (some "cleaned.json") = .ok (stats, wr) ∧
      clean_coco_annotations (.ok wr.doc) true "cleaned.json" [0, 39] none =
        .ok (stats2, wr2) ∧
      stats2.categories_removed_count = 0 ∧
      stats2.annotations_removed_count = 0 :=
  clean_idempotent exDoc exCats exAnns [0, 39] "annotations.json" "cleaned.json"
    (some "cleaned.json") none rfl rfl

/-- C6: identity — when the removal list is disjoint from every category id
and every annotation category_id occurring in the document, the output
categories and annotations are equal to the originals. -/
theorem clean_identity_on_disjoint (data : CocoDoc) (cats : List Category)
    (anns : List Ann) (S : List Int) (src : String) (out : Option String)
    (hc : data.categories = some cats) (ha : data.annotations = some anns)
    (h1 : ∀ c ∈ cats, c.id ∉ S) (h2 : ∀ a ∈ anns, a.category_id ∉ S) :
    ∃ stats wr, clean_coco_annotations (.ok data) true src S out = .ok (stats, wr) ∧
      wr.doc.categories = some cats ∧ wr.doc.annotations = some anns := by
  refine ⟨_, _, clean_ok_eq data cats anns S src out hc ha, ?_, ?_⟩
  · refine congrArg some (List.filter_eq_self.mpr ?_)
    intro c hcl
    simp [contains_eq_decide_mem, h1 c hcl]
  · refine congrArg some (List.filter_eq_self.mpr ?_)
    intro a hal
    simp [contains_eq_decide_mem, h2 a hal]

/-- Witness for C6 at the Scenario A document with the disjoint removal
list [5] (Scenario B of the specification). -/
theorem clean_identity_on_disjoint_witness :
    ∃ stats wr,
      clean_coco_annotations (.ok exDoc) true "annotations.json" [5] none =
        .ok (stats, wr) ∧
      wr.doc.categories = some exCats ∧ wr.doc.annotations = some exAnns :=
  clean_identity_on_disjoint exDoc exCats exAnns [5] "annotations.json" none
    rfl rfl (by decide) (by decide)

/-- C7: the statistics returned on success report the count and full records
of the removed categories, the count of removed annotations, the original
and final counts of both collections, and the resolved output location; each
count equals the length of the corresponding input or output sequence. -/
theorem clean_stats_complete (data : CocoDoc) (cats : List Category)
    (anns : List Ann) (S : List Int) (src : String) (out : Option String)
    (hc : data.categories = some cats) (ha : data.annotations = some anns) :
    ∃ stats wr, clean_coco_annotations (.ok data) true src S out = .ok (stats, wr) ∧
      stats.categories_removed = cats.filter (fun c => decide (c.id ∈ S)) ∧
      stats.categories_removed_count = stats.categories_removed.length ∧
      stats.annotations_removed_count =
        (anns.filter (fun a => decide (a.category_id ∈ S))).length ∧
      stats.original_categories_count = cats.length ∧
      stats.original_annotations_count = anns.length ∧
      wr.doc.categories = some (cats.filter (fun c => decide (c.id ∉ S))) ∧
      stats.final_categories_count = (cats.filter (fun c => decide (c.id ∉ S))).length ∧
      wr.doc.annotations = some (anns.filter (fun a => decide (a.category_id ∉ S))) ∧
      stats.final_annotations_count =
        (anns.filter (fun a => decide (a.category_id ∉ S))).length ∧
      stats.output_file = out.getD src ∧
      wr.path = stats.output_file := by
  have e1 := filter_contains_congr cats (fun c => c.id) S
  have e2 := filter_contains_congr anns (fun a => a.category_id) S
  have e3 := filter_not_contains_congr cats (fun c => c.id) S
  have e4 := filter_not_contains_congr anns (fun a => a.category_id) S
  refine ⟨_, _, clean_ok_eq data cats anns S src out hc ha, ?_, rfl, ?_, rfl, rfl,
    ?_, ?_, ?_, ?_, rfl, rfl⟩
  · exact e1
  · exact congrArg List.length e2
  · exact congrArg some e3
  · exact congrArg List.length e3
  · exact congrArg some e4
  · exact congrArg List.length e4

/-- Witness for C7 at the Scenario A document with S = [0, 39]. -/
theorem clean_stats_complete_witness :
    ∃ stats wr,
      clean_coco_annotations (.ok exDoc) true "annotations.json" [0, 39]
        (some "cleaned.json") = .ok (stats, wr) ∧
      stats.categories_removed = exCats.filter (fun c => decide (c.id ∈ [0, 39])) ∧
      stats.categories_removed_count = stats.categories_removed.length ∧
      stats.annotations_removed_count =
        (exAnns.filter (fun a => decide (a.category_id ∈ [0, 39]))).length ∧
      stats.original_categories_count = exCats.length ∧
      stats.original_annotations_count = exAnns.length ∧
      wr.doc.categories = some (exCats.filter (fun c => decide (c.id ∉ [0, 39]))) ∧
      stats.final_categories_count =
        (exCats.filter (fun c => decide (c.id ∉ [0, 39]))).length ∧
      wr.doc.annotations =
        some (exAnns.filter (fun a => decide (a.category_id ∉ [0, 39]))) ∧
      stats.final_annotations_count =
        (exAnns.filter (fun a => decide (a.category_id ∉ [0, 39]))).length ∧
      stats.output_file = (some "cleaned.json").getD "annotations.json" ∧
      wr.path = stats.output_file :=
  clean_stats_complete exDoc exCats exAnns [0, 39] "annotations.json"
    (some "cleaned.json") rfl rfl

/-- C8: the write uses indent 2 (pretty-printed) exactly when the resolved
output path differs from the source path; when the output path is omitted or
equals the source path the write is compact (indent none), matching the
json.dump call at line 69 of the source. -/
theorem clean_indent_policy (data : CocoDoc) (cats : List Category)
    (anns : List Ann) (S : List Int) (src : String) (out : Option String)
    (hc : data.categories = some cats) (ha : data.annotations = some anns) :
    ∃ stats wr, clean_coco_annotations (.ok data) true src S out = .ok (stats, wr) ∧
      (wr.indent = some 2 ↔ out.getD src ≠ src) ∧
      (wr.indent = none ↔ out.getD src = src) ∧
      (out = none → wr.indent = none) := by
  refine ⟨_, _, clean_ok_eq data cats anns S src out hc ha, ?_, ?_, ?_⟩
  · by_cases h : out.getD src = src <;> simp [h]
  · by_cases h : out.getD src = src <;> simp [h]
  · intro h
    subst h
    simp

/-- Witness for C8: a distinct output path yields indent 2, an omitted
output path yields compact output. -/
theorem clean_indent_policy_witness :
    (∃ stats wr,
      clean_coco_annotations (.ok exDoc) true "annotations.json" [0, 39]
        (some "cleaned.json") = .ok (stats, wr) ∧
      (wr.indent = some 2 ↔
        (some "cleaned.json").getD "annotations.json" ≠ "annotations.json") ∧
      (wr.indent = none ↔
        (some "cleaned.json").getD "annotations.json" = "annotations.json") ∧
      (some "cleaned.json" = none → wr.indent = none)) ∧
    (∃ stats wr,
      clean_coco_annotations (.ok exDoc) true "annotations.json" [0, 39] none =
        .ok (stats, wr) ∧
      (wr.indent = some 2 ↔
        (none : Option String).getD "annotations.json" ≠ "annotations.json") ∧
      (wr.indent = none ↔
        (none : Option String).getD "annotations.json" = "annotations.json") ∧
      ((none : Option String) = none → wr.indent = none)) :=
  ⟨clean_indent_policy exDoc exCats exAnns [0, 39] "annotations.json"
      (some "cleaned.json") rfl rfl,
    clean_indent_policy exDoc exCats exAnns [0, 39] "annotations.json" none
      rfl rfl⟩

/-- C10: statistics arithmetic — on every successful run the final count is
the original count minus the removed count for both collections, and the
kept and removed entries together account for every input entry exactly
once (their counts sum to the original count). -/
theorem clean_counts_conserved (data : CocoDoc) (cats : List Category)
    (anns : List Ann) (S : List Int) (src : String) (out : Option String)
    (hc : data.categories = some cats) (ha : data.annotations = some anns) :
    ∃ stats wr, clean_coco_annotations (.ok data) true src S out = .ok (stats, wr) ∧
      stats.final_categories_count + stats.categories_removed_count =
        stats.original_categories_count ∧
      stats.final_annotations_count + stats.annotations_removed_count =
        stats.original_annotations_count ∧
      stats.final_categories_count =
        stats.original_categories_count - stats.categories_removed_count ∧
      stats.final_annotations_count =
        stats.original_annotations_count - stats.annotations_removed_count := by
  have h1 := length_filter_add_length_filter_not cats (fun cat => S.contains cat.id)
  have h2 := length_filter_add_length_filter_not anns (fun a => S.contains a.category_id)
  refine ⟨_, _, clean_ok_eq data cats anns S src out hc ha, ?_, ?_, ?_, ?_⟩ <;>
    simp only [] <;> omega

/-- Witness for C10 at the Scenario A document with S = [0, 39]. -/
theorem clean_counts_conserved_witness :
    ∃ stats wr,
      clean_coco_annotations (.ok exDoc) true "annotations.json" [0, 39]
        (some "cleaned.json") = .ok (stats, wr) ∧
      stats.final_categories_count + stats.categories_removed_count =
        stats.original_categories_count ∧
      stats.final_annotations_count + stats.annotations_removed_count =
        stats.original_annotations_count ∧
      stats.final_categories_count =
        stats.original_categories_count - stats.categories_removed_count ∧
      stats.final_annotations_count =
        stats.original_annotations_count - stats.annotations_removed_count :=
  clean_counts_conserved exDoc exCats exAnns [0, 39] "annotations.json"
    (some "cleaned.json") rfl rfl

/-- C9: whenever the category-id argument fails to parse (a non-integer
token) or parses to an empty list, or the source path does not exist, the
run exits with code 1, a single message on standard error, and no file is
written or modified; moreover the very same outcome is produced whatever
the source file would have parsed to (load is arbitrary on both sides), so
a missing source file makes the process exit before any parse attempt. -/
theorem cli_error_exits (fe : Bool) (load load2 : LoadResult) (w : Bool)
    (src arg : String) (out : Option String) (v : Bool)
    (h : parseCategoryIds arg = none ∨ parseCategoryIds arg = some [] ∨
      fe = false) :
    ∃ m, mainRun fe load w src arg out v = (.exit1 m, none) ∧
      mainRun fe load2 w src arg out v = (.exit1 m, none) := by
  rcases h with h | h | h
  · exact ⟨"Error: Category IDs must be integers separated by commas",
      by simp [mainRun, h], by simp [mainRun, h]⟩
  · exact ⟨"Error: At least one category ID must be specified",
      by simp [mainRun, h], by simp [mainRun, h]⟩
  · subst h
    cases hp : parseCategoryIds arg with
    | none =>
      exact ⟨"Error: Category IDs must be integers separated by commas",
        by simp [mainRun, hp], by simp [mainRun, hp]⟩
    | some ids =>
      by_cases hi : ids.isEmpty
      · exact ⟨"Error: At least one category ID must be specified",
          by simp [mainRun, hp, hi], by simp [mainRun, hp, hi]⟩
      · exact ⟨"Error: Annotation file not found: " ++ src,
          by simp [mainRun, hp, hi], by simp [mainRun, hp, hi]⟩

/-- Witness for C9: the Scenario C argument "x,2" (non-integer token) and a
missing source file each produce exit code 1 with no file written. -/
theorem cli_error_exits_witness :
    (∃ m, mainRun true (.ok exDoc) true "annotations.json" "x,2" none false =
        (.exit1 m, none) ∧
      mainRun true (.parseError "boom") true "annotations.json" "x,2" none false =
        (.exit1 m, none)) ∧
    (∃ m, mainRun false (.ok exDoc) true "missing.json" "5" none false =
        (.exit1 m, none) ∧
      mainRun false (.parseError "boom") true "missing.json" "5" none false =
        (.exit1 m, none)) :=
  ⟨cli_error_exits true (.ok exDoc) (.parseError "boom") true "annotations.json"
      "x,2" none false (Or.inl (by decide)),
    cli_error_exits false (.ok exDoc) (.parseError "boom") true "missing.json"
      "5" none false (Or.inr (Or.inr rfl))⟩

end Coco
